import Mathlib

/-!
Verification of the thread-scheduling and synchronization core of the
pintos-thread-syscall repository.

Shallow embedding of:
  - src/dev/cdhcsh/threads/synch.c      (semaphores, locks, condition variables)
  - src/dev/hkyoo988/threads/thread.c   (ready queue, thread_create, scheduling)
  - src/dev/hkyoo988/threads/interrupt.c (interrupt dispatch)
  - src/dev/cdhcsh/include/threads/thread.h (thread record, PRI_MIN/PRI_MAX)

Machine integers are modelled as Int (C `int`) and Nat (C `unsigned`); the
priorities in play lie in [0, 63] so no overflow arises.  ASSERT failures
(kernel PANIC with a diagnostic dump) are modelled by `Except Fatal`.
-/

namespace PintosModel

/-- Thread control block, restricted to the fields the claims are about:
`tid`, the `priority` field of `struct thread` (the effective priority used by
every comparator in the source), and a ghost `arrival` timestamp recording the
moment the record was inserted into a list (used only to express FIFO order
among equal priorities; it is not a C field and no embedded operation reads
it). -/
structure ThreadRec where
  tid : Nat
  priority : Int
  arrival : Nat
  deriving Repr, DecidableEq

/-- Pintos `list_insert_ordered` (lib/kernel/list.c): traverse from the front
and insert X immediately before the first element E with `less X E`; hence X
lands after every element with an equal key, preserving FIFO among ties. -/
def insertOrdered {α : Type} (less : α → α → Bool) (x : α) : List α → List α
  | [] => [x]
  | y :: ys => if less x y then x :: y :: ys else y :: insertOrdered less x ys

/-- Pintos `list_sort` (lib/kernel/list.c) is a stable merge sort by `less`.
A stable sort for a fixed strict comparator is unique, so it is embedded as
the stable insertion sort: fold the elements in order of appearance, each one
inserted after all elements it does not strictly beat. -/
def list_sort {α : Type} (less : α → α → Bool) (l : List α) : List α :=
  l.foldl (fun acc x => insertOrdered less x acc) []

/-- The function `compare_priority` of synch.c (lines 36-44): interprets both
list elements as threads and returns `a->priority > b->priority`. -/
def compare_priority (a b : ThreadRec) : Bool := a.priority > b.priority

/-- The function `compare_elem` of thread.c (lines 242-252): returns 1 iff
`t1->priority > t2->priority`, else 0. -/
def compare_elem (a b : ThreadRec) : Bool := a.priority > b.priority

/-- Outcomes of a failed ASSERT: the kernel halts with a diagnostic dump
(`PANIC` in debug.c); no state is written after the failing assertion. -/
inductive Fatal where
  | assertIntrContext
  | assertAlreadyHeld
  | assertNotHolder
  | assertPriorityRange
  deriving Repr, DecidableEq

/-- The `struct semaphore` of synch.h: an unsigned `value` and the `waiters`
list of blocked threads. -/
structure Semaphore where
  value : Nat
  waiters : List ThreadRec
  deriving Repr, DecidableEq

/-- Result of one entry to `sema_down`: either the value was positive and was
decremented (the call returns), or the value was zero, in which case the
caller was inserted into `waiters` by `list_insert_ordered(compare_priority)`
and blocked inside the while loop (synch.c lines 76-80). -/
inductive DownResult where
  | completed (s : Semaphore)
  | blocked (s : Semaphore)
  deriving Repr, DecidableEq

/-- The function `sema_down` of synch.c (lines 68-83), one pass of the while
loop: while `value == 0` enqueue the caller (ordered by `compare_priority`)
and block; otherwise decrement `value`.  Interrupt masking brackets the body
and is not otherwise observable here. -/
def sema_down (cur : ThreadRec) (s : Semaphore) : DownResult :=
  if s.value = 0 then
    .blocked { s with waiters := insertOrdered compare_priority cur s.waiters }
  else
    .completed { s with value := s.value - 1 }

/-- The function `sema_up` of synch.c (lines 115-131): if waiters exist, sort
them with `compare_priority`, pop the front and unblock it (returned as the
second component); then increment `value`.  (`priority_schedule()` at the end
does not touch the semaphore.) -/
def sema_up (s : Semaphore) : Semaphore × Option ThreadRec :=
  match s.waiters with
  | [] => ({ s with value := s.value + 1 }, none)
  | w :: ws =>
      let sorted := list_sort compare_priority (w :: ws)
      ({ value := s.value + 1, waiters := sorted.tail }, sorted.head?)

/-- The `struct lock` of synch.h: a `holder` (thread id, or none) and the
underlying semaphore. -/
structure Lock where
  holder : Option Nat
  semaphore : Semaphore
  deriving Repr, DecidableEq

/-- The function `lock_held_by_current_thread` of synch.c (lines 236-241):
`lock->holder == thread_current()`. -/
def lock_held_by_current_thread (cur : Nat) (lk : Lock) : Bool :=
  lk.holder = some cur

/-- Result of `lock_acquire`: either the semaphore was available, the caller
decremented it and wrote `lock->holder = thread_current()`, or the caller was
enqueued on `lock->semaphore.waiters` and blocked (holder unchanged, since
the `lock->holder = thread_current()` write happens only after `sema_down`
returns). -/
inductive AcquireResult where
  | acquired (lk : Lock)
  | blocked (lk : Lock)
  deriving Repr, DecidableEq

/-- The function `lock_acquire` of synch.c (lines 192-200):
ASSERT(!intr_context()); ASSERT(!lock_held_by_current_thread(lock));
sema_down(&lock->semaphore); lock->holder = thread_current().
Note that the body contains no write to any thread's `priority` field: there
is no donation logic anywhere in this synch.c. -/
def lock_acquire (intrCtx : Bool) (cur : ThreadRec) (lk : Lock) :
    Except Fatal AcquireResult :=
  if intrCtx then .error .assertIntrContext
  else if lock_held_by_current_thread cur.tid lk then .error .assertAlreadyHeld
  else
    match sema_down cur lk.semaphore with
    | .blocked s => .ok (.blocked { lk with semaphore := s })
    | .completed s => .ok (.acquired { holder := some cur.tid, semaphore := s })

/-- The function `lock_release` of synch.c (lines 224-231):
ASSERT(lock_held_by_current_thread(lock)); lock->holder = NULL;
sema_up(&lock->semaphore).  Returns the updated lock and the thread woken by
`sema_up`, if any.  No thread's `priority` field is written. -/
def lock_release (cur : Nat) (lk : Lock) :
    Except Fatal (Lock × Option ThreadRec) :=
  if lock_held_by_current_thread cur lk then
    let r := sema_up lk.semaphore
    .ok ({ holder := none, semaphore := r.1 }, r.2)
  else .error .assertNotHolder

/-- Kernel state for the donation scenario: every TCB (carrying its current
`priority` field) together with the one lock under test.  `lock_acquire` and
`lock_release` act on `lock` only; the `threads` component records what the C
code would hold in each `struct thread`. -/
structure KState where
  threads : List ThreadRec
  lock : Lock
  deriving Repr, DecidableEq

/-- Read the `priority` field of the thread with id `t`. -/
def priorityOf (k : KState) (t : Nat) : Option Int :=
  (k.threads.find? (fun th => th.tid = t)).map (fun th => th.priority)

/-- Lift `lock_acquire` to the kernel state: the only state the C function
writes is the lock (semaphore value/waiters, holder) and the caller's status;
the `threads` priorities are carried through untouched, exactly as in the
source, which contains no donation code. -/
def klock_acquire (cur : ThreadRec) (k : KState) : Except Fatal KState :=
  match lock_acquire false cur k.lock with
  | .error e => .error e
  | .ok (.blocked lk) => .ok { k with lock := lk }
  | .ok (.acquired lk) => .ok { k with lock := lk }

/-- Lift `lock_release` to the kernel state: again only the lock is written;
no priority is recomputed (the source has no `refresh_priority`-style call in
`lock_release`). -/
def klock_release (cur : Nat) (k : KState) :
    Except Fatal (KState × Option ThreadRec) :=
  match lock_release cur k.lock with
  | .error e => .error e
  | .ok (lk, woken) => .ok ({ k with lock := lk }, woken)

/-!
Scheduler embedding, from src/dev/hkyoo988/threads/thread.c.

The mutable scheduler state the claims are about is the `ready_list` together
with a ghost clock used to stamp arrivals.  The ready list is mutated at
exactly three places in thread.c: `thread_unblock` (line 236, ordered insert
with `compare_elem`), `thread_yield` (line 316, the same ordered insert,
guarded by `curr != idle_thread`), and `next_thread_to_run` (line 443,
`list_pop_front`).  `do_schedule` moves dying threads onto `destruction_req`,
never onto `ready_list`, and `thread_set_priority` writes only the Running
thread's priority, which is not in the ready list, so neither affects the
queue.
-/

/-- Scheduler state: the `ready_list` and a ghost arrival clock. -/
structure SchedState where
  queue : List ThreadRec
  clock : Nat
  deriving Repr, DecidableEq

/-- One mutation of the ready list, parametrised by which thread ids may be
inserted (`fun _ => True` for the general system; `fun t => t ≠ idleTid` for
the post-startup system, where `thread_yield` skips the idle thread and the
idle thread, which blocks itself and is never passed to `thread_unblock`, is
never inserted). -/
inductive SchedStep (allowed : Nat → Prop) : SchedState → SchedState → Prop
  | unblock (t : Nat) (p : Int) (s : SchedState) (h : allowed t) :
      SchedStep allowed s
        ⟨insertOrdered compare_elem ⟨t, p, s.clock⟩ s.queue, s.clock + 1⟩
  | yield (t : Nat) (p : Int) (s : SchedState) (h : allowed t) :
      SchedStep allowed s
        ⟨insertOrdered compare_elem ⟨t, p, s.clock⟩ s.queue, s.clock + 1⟩
  | dispatch (s : SchedState) :
      SchedStep allowed s ⟨s.queue.tail, s.clock⟩

/-- States reachable from the empty ready list (`list_init(&ready_list)` in
`thread_init`). -/
def SchedReachable (allowed : Nat → Prop) (s : SchedState) : Prop :=
  Relation.ReflTransGen (SchedStep allowed) ⟨[], 0⟩ s

/-- The function `next_thread_to_run` of thread.c (lines 437-444): if the
ready list is empty return `idle_thread`, else pop and return the front.
Returns the chosen thread and the remaining queue. -/
def next_thread_to_run (idle : ThreadRec) (q : List ThreadRec) :
    ThreadRec × List ThreadRec :=
  match q with
  | [] => (idle, [])
  | t :: ts => (t, ts)

/-- The function `test_max_priority` of thread.c (lines 331-336): if the
ready list is non-empty and the current thread's priority is lower than the
front thread's, call `thread_yield()`.  Returns whether the yield happens. -/
def test_max_priority (curPrio : Int) (q : List ThreadRec) : Bool :=
  match q with
  | [] => false
  | h :: _ => curPrio < h.priority

/-- TID_ERROR from thread.h: `((tid_t) -1)`. -/
def TID_ERROR : Int := -1

/-- Result of `thread_create`: the returned tid, the scheduler state after
the call, and whether the caller relinquished the CPU inside the call
(`yielded = true` means `test_max_priority` invoked `thread_yield()` before
`thread_create` returned). -/
structure CreateResult where
  tid : Int
  state : SchedState
  yielded : Bool
  deriving Repr, DecidableEq

/-- The function `thread_create` of thread.c (lines 174-204): if
`palloc_get_page` fails (`allocOk = false`), return TID_ERROR at once — no
thread is initialized or enqueued.  Otherwise `init_thread` the new TCB with
the given priority, `thread_unblock(t)` inserts it into the ready list
ordered by `compare_elem`, and then `thread_create` itself calls
`test_max_priority()` (line 201), which yields the CPU if the ready-list
front now outranks the caller. -/
def thread_create (allocOk : Bool) (cur : ThreadRec) (newTid : Nat)
    (newPrio : Int) (st : SchedState) : CreateResult :=
  if allocOk then
    let t : ThreadRec := ⟨newTid, newPrio, st.clock⟩
    let q := insertOrdered compare_elem t st.queue
    { tid := Int.ofNat newTid
      state := ⟨q, st.clock + 1⟩
      yielded := test_max_priority cur.priority q }
  else
    { tid := TID_ERROR, state := st, yielded := false }

/-!
Condition variables, from synch.c lines 244-307.

The elements of `cond->waiters` are `struct semaphore_elem` locals of
`cond_wait` (a 16-byte `list_elem` at offset 0 followed by the private
semaphore).  `cond_signal` sorts this list with `compare_priority`, whose
body applies `list_entry(e, struct thread, elem)` — but in `struct thread`
(thread.h lines 73-103) `elem` sits at byte offset 40 (tid 0, status 4,
name 8, priority 24, padding 28, wake_tick 32, elem 40) and `priority` at
offset 24, so the comparator reads the int 16 bytes BEFORE each
`semaphore_elem`, i.e. unrelated memory of `cond_wait`'s stack frame, not
any thread's priority.  The embedding records that word as `frameWord` and
keeps the waiting thread's actual priority in `waiterPriority` (which the
comparator, faithfully, never reads).
-/

/-- A `struct semaphore_elem` in `cond->waiters`, together with the stack
word `compare_priority` actually reads (see the section comment) and the
waiting thread's real priority. -/
structure SemaphoreElem where
  frameWord : Int
  waiterPriority : Int
  sem : Semaphore
  deriving Repr, DecidableEq

/-- `compare_priority` as invoked on `cond->waiters`: because of the
`list_entry` type confusion it compares the words 16 bytes before the two
`semaphore_elem`s, i.e. `frameWord`, not `waiterPriority`. -/
def compare_priority_on_cond (a b : SemaphoreElem) : Bool :=
  a.frameWord > b.frameWord

/-- The function `cond_signal` of synch.c (lines 293-307): if waiters exist,
`list_sort(&cond->waiters, compare_priority, NULL)` then pop the front and
`sema_up` its private semaphore.  Returns the remaining waiter list and the
popped (signalled) waiter. -/
def cond_signal (waiters : List SemaphoreElem) :
    List SemaphoreElem × Option SemaphoreElem :=
  match waiters with
  | [] => ([], none)
  | w :: ws =>
      let sorted := list_sort compare_priority_on_cond (w :: ws)
      (sorted.tail, sorted.head?)

/-!
Interrupt dispatch, from src/dev/hkyoo988/threads/interrupt.c.
-/

/-- Outcome of `intr_handler` for a given vector: the registered handler ran;
or there was no handler and the vector was one of the two benign spurious
ones (0x27, 0x2f), silently ignored; or there was no handler and the kernel
dumped the frame (`intr_dump_frame`) and PANICked. -/
inductive IntrOutcome where
  | handled
  | ignoredSpurious
  | panicDump
  deriving Repr, DecidableEq

/-- The handler-dispatch core of `intr_handler` (interrupt.c lines 340-352):
`handler = intr_handlers[frame->vec_no]; if (handler != NULL) handler(frame);
else if (vec_no == 0x27 || vec_no == 0x2f) ignore; else
{ intr_dump_frame(frame); PANIC("Unexpected interrupt"); }`. -/
def intr_handler_dispatch (registered : Nat → Bool) (vec : Nat) : IntrOutcome :=
  if registered vec then .handled
  else if vec = 0x27 ∨ vec = 0x2f then .ignoredSpurious
  else .panicDump

/-!
Thread initialization, from thread.c lines 416-432 and thread.h lines 26-29.
-/

/-- PRI_MIN from thread.h line 27. -/
def PRI_MIN : Int := 0

/-- PRI_DEFAULT from thread.h line 28. -/
def PRI_DEFAULT : Int := 31

/-- PRI_MAX from thread.h line 29. -/
def PRI_MAX : Int := 63

/-- The fields of a freshly initialized TCB that the claims are about:
`priority` (effective), `init_priority` (base), `wait_on_lock`, and the
donor list. -/
structure InitializedThread where
  priority : Int
  init_prio_base : Int
  wait_on_lock : Option Nat
  donor : List Nat
  deriving Repr, DecidableEq

/-- The function `init_thread` of thread.c (lines 416-432):
ASSERT(PRI_MIN <= priority && priority <= PRI_MAX) — a failure halts the
kernel — then after memset: `t->priority = priority; t->init_priority =
priority; t->wait_on_lock = NULL; list_init(&t->donor);` (the status is set
to THREAD_BLOCKED, not modelled here). -/
def init_thread (priority : Int) : Except Fatal InitializedThread :=
  if PRI_MIN ≤ priority ∧ priority ≤ PRI_MAX then
    .ok { priority := priority
          init_prio_base := priority
          wait_on_lock := none
          donor := [] }
  else .error .assertPriorityRange

/-!
Ready-queue ordering invariant (claims C3/C4): helper relation and lemmas.
-/

/-- Order in which the ready list keeps its elements: strictly higher
priority first, and FIFO (earlier arrival first) among equal priorities. -/
def queueBefore (a b : ThreadRec) : Prop :=
  b.priority < a.priority ∨ (a.priority = b.priority ∧ a.arrival < b.arrival)

/-- Invariant carried through every ready-list mutation: the queue is
pairwise ordered by `queueBefore` and every arrival stamp predates the
clock. -/
def QueueInv (s : SchedState) : Prop :=
  s.queue.Pairwise queueBefore ∧ ∀ t ∈ s.queue, t.arrival < s.clock

theorem mem_insertOrdered {α : Type} (less : α → α → Bool) (x : α)
    (l : List α) (z : α) :
    z ∈ insertOrdered less x l ↔ z = x ∨ z ∈ l := by
  induction l with
  | nil => simp [insertOrdered]
  | cons y ys ih =>
    simp only [insertOrdered]
    by_cases h : less x y
    · rw [if_pos h]
      exact List.mem_cons
    · rw [if_neg h]
      simp only [List.mem_cons, ih]
      tauto

theorem insertOrdered_pairwise (x : ThreadRec) (l : List ThreadRec)
    (hl : l.Pairwise queueBefore)
    (harr : ∀ y ∈ l, y.arrival < x.arrival) :
    (insertOrdered compare_elem x l).Pairwise queueBefore := by
  induction l with
  | nil => simp [insertOrdered]
  | cons y ys ih =>
    simp only [insertOrdered]
    rcases List.pairwise_cons.mp hl with ⟨hy, hys⟩
    by_cases h : compare_elem x y
    · rw [if_pos h]
      have hxy : y.priority < x.priority := by
        simpa [compare_elem] using h
      refine List.pairwise_cons.mpr ⟨?_, hl⟩
      intro z hz
      rcases List.mem_cons.mp hz with rfl | hz
      · exact Or.inl hxy
      · rcases hy z hz with hlt | ⟨heq, _⟩
        · exact Or.inl (lt_trans hlt hxy)
        · exact Or.inl (heq ▸ hxy)
    · rw [if_neg h]
      have hxy : x.priority ≤ y.priority := by
        simpa [compare_elem, not_lt] using h
      refine List.pairwise_cons.mpr ⟨?_, ih hys (fun z hz => harr z (List.mem_cons_of_mem _ hz))⟩
      intro z hz
      rcases (mem_insertOrdered _ _ _ _).mp hz with rfl | hz
      · rcases lt_or_eq_of_le hxy with hlt | heq
        · exact Or.inl hlt
        · exact Or.inr ⟨heq.symm, harr y (List.mem_cons_self y ys)⟩
      · exact hy z hz

theorem schedStep_preserves_inv {allowed : Nat → Prop} {s s' : SchedState}
    (hstep : SchedStep allowed s s') (hinv : QueueInv s) : QueueInv s' := by
  cases hstep with
  | unblock t p s h =>
      refine ⟨insertOrdered_pairwise _ _ hinv.1 (fun y hy => hinv.2 y hy), ?_⟩
      intro z hz
      rcases (mem_insertOrdered _ _ _ _).mp hz with rfl | hz
      · exact Nat.lt_succ_self _
      · exact Nat.lt_succ_of_lt (hinv.2 z hz)
  | yield t p s h =>
      refine ⟨insertOrdered_pairwise _ _ hinv.1 (fun y hy => hinv.2 y hy), ?_⟩
      intro z hz
      rcases (mem_insertOrdered _ _ _ _).mp hz with rfl | hz
      · exact Nat.lt_succ_self _
      · exact Nat.lt_succ_of_lt (hinv.2 z hz)
  | dispatch s =>
      exact ⟨hinv.1.tail, fun z hz => hinv.2 z (List.mem_of_mem_tail hz)⟩

theorem schedReachable_inv {allowed : Nat → Prop} {s : SchedState}
    (h : SchedReachable allowed s) : QueueInv s := by
  induction h with
  | refl => exact ⟨List.Pairwise.nil, by intro t ht; cases ht⟩
  | tail _ hstep ih => exact schedStep_preserves_inv hstep ih

theorem schedReachable_allowed {allowed : Nat → Prop} {s : SchedState}
    (h : SchedReachable allowed s) : ∀ t ∈ s.queue, allowed t.tid := by
  induction h with
  | refl => intro t ht; cases ht
  | tail _ hstep ih =>
      cases hstep with
      | unblock t p s hok =>
          intro z hz
          rcases (mem_insertOrdered _ _ _ _).mp hz with rfl | hz
          · exact hok
          · exact ih z hz
      | yield t p s hok =>
          intro z hz
          rcases (mem_insertOrdered _ _ _ _).mp hz with rfl | hz
          · exact hok
          · exact ih z hz
      | dispatch s =>
          intro z hz
          exact ih z (List.mem_of_mem_tail hz)

theorem insertOrdered_head_ge (x : ThreadRec) (l : List ThreadRec) :
    ∃ hd rest, insertOrdered compare_elem x l = hd :: rest ∧
      x.priority ≤ hd.priority := by
  cases l with
  | nil => exact ⟨x, [], rfl, le_refl _⟩
  | cons y ys =>
    simp only [insertOrdered]
    by_cases h : compare_elem x y
    · rw [if_pos h]
      exact ⟨x, y :: ys, rfl, le_refl _⟩
    · rw [if_neg h]
      have hxy : x.priority ≤ y.priority := by
        simpa [compare_elem, not_lt] using h
      exact ⟨y, insertOrdered compare_elem x ys, rfl, hxy⟩

/-!
Claim theorems.
-/

/-- Thread A of the donation scenario: tid 1, priority 10. -/
def threadA : ThreadRec := ⟨1, 10, 1⟩

/-- Thread B of the donation scenario: tid 2, priority 5. -/
def threadB : ThreadRec := ⟨2, 5, 0⟩

/-- Donation-scenario start state: B holds the lock (the underlying semaphore
was downed to 0 when B acquired it), no waiters yet. -/
def donScenario : KState :=
  { threads := [threadA, threadB]
    lock := { holder := some 2, semaphore := { value := 0, waiters := [] } } }

/-- State after A's `lock_acquire` blocks: A sits on the semaphore's waiter
list; every thread's `priority` field is exactly as before. -/
def donAfterBlock : KState :=
  { threads := [threadA, threadB]
    lock := { holder := some 2, semaphore := { value := 0, waiters := [threadA] } } }

/-- State after B's `lock_release`: holder cleared, A popped and woken, the
semaphore value back at 1; again no `priority` field changed. -/
def donAfterRelease : KState :=
  { threads := [threadA, threadB]
    lock := { holder := none, semaphore := { value := 1, waiters := [] } } }

/-- C1: the priority-donation round trip claimed by the spec does not happen
in the code.  Thread A (priority 10) blocks acquiring the lock held by thread
B (priority 5); `lock_acquire` (synch.c lines 192-200) merely runs `sema_down`
and later writes `lock->holder` — it contains no donation walk, and no code in
synch.c ever writes a thread's `priority` field — so B's effective priority
stays 5 (not 10) for the whole time B holds the lock, and `lock_release`
(lines 224-231) wakes A without any priority bookkeeping.  This contradicts
the claimed raise of B's priority to A's while B holds the lock. -/
theorem donation_round_trip_missing :
    klock_acquire threadA donScenario = .ok donAfterBlock ∧
    priorityOf donAfterBlock 2 = some 5 ∧
    ¬ priorityOf donAfterBlock 2 = some 10 ∧
    klock_release 2 donAfterBlock = .ok (donAfterRelease, some threadA) ∧
    priorityOf donAfterRelease 2 = some 5 :=
  ⟨rfl, rfl, by decide, rfl, rfl⟩

/-- Cond waiter whose thread has the high priority (10) but whose stack word
at the address `compare_priority` actually reads is 0. -/
def condWaiterHigh : SemaphoreElem := ⟨0, 10, ⟨0, []⟩⟩

/-- Cond waiter whose thread has the low priority (5) but whose stack word at
the address `compare_priority` actually reads is 7. -/
def condWaiterLow : SemaphoreElem := ⟨7, 5, ⟨0, []⟩⟩

/-- C2: `cond_signal` (synch.c lines 293-307) does not signal the waiter with
the highest thread priority.  It sorts `cond->waiters` with `compare_priority`,
which applies `list_entry(e, struct thread, elem)` to list elements that are
actually `struct semaphore_elem` locals of `cond_wait`; the int it compares
lies 16 bytes before each `semaphore_elem` (offset of `elem` in `struct
thread` is 40, of `priority` 24), i.e. unrelated stack memory.  With two
waiters whose frame words order opposite to their threads' priorities, the
signalled waiter is the LOWER-priority one. -/
theorem cond_signal_signals_wrong_waiter :
    (cond_signal [condWaiterHigh, condWaiterLow]).2 = some condWaiterLow ∧
    condWaiterLow.waiterPriority < condWaiterHigh.waiterPriority :=
  ⟨rfl, by decide⟩

/-- C3: in every reachable scheduler state the ready queue is ordered by
priority descending with FIFO among equal priorities (`queueBefore`), and
whenever the queue is non-empty the scheduling decision `next_thread_to_run`
picks exactly its head, which has maximal priority among all queued threads,
ties broken by earliest arrival. -/
theorem ready_queue_sorted_and_head_chosen {s : SchedState}
    (h : SchedReachable (fun _ => True) s) :
    s.queue.Pairwise queueBefore ∧
    ∀ (idle hd : ThreadRec) (rest : List ThreadRec), s.queue = hd :: rest →
      (next_thread_to_run idle s.queue).1 = hd ∧
      ∀ t ∈ s.queue, t.priority ≤ hd.priority ∧
        (t.priority = hd.priority → hd.arrival ≤ t.arrival) := by
  have hinv := schedReachable_inv h
  refine ⟨hinv.1, ?_⟩
  intro idle hd rest hq
  constructor
  · rw [hq]
    rfl
  · intro t ht
    have hpw := hinv.1
    rw [hq] at ht hpw
    rcases List.mem_cons.mp ht with rfl | ht
    · exact ⟨le_refl _, fun _ => le_refl _⟩
    · have hb : queueBefore hd t := (List.pairwise_cons.mp hpw).1 t ht
      rcases hb with hlt | ⟨heq, hato⟩
      · exact ⟨le_of_lt hlt, fun he => absurd (he ▸ hlt) (lt_irrefl _)⟩
      · exact ⟨le_of_eq heq.symm, fun _ => le_of_lt hato⟩

/-- Witness for C3 at a concrete reachable state: after unblocking thread 1
(priority 5) into the empty ready list, the scheduling decision picks it. -/
theorem ready_queue_sorted_and_head_chosen_witness :
    (next_thread_to_run ⟨0, 0, 0⟩ [⟨1, 5, 0⟩]).1 = ⟨1, 5, 0⟩ := by
  have h : SchedReachable (fun _ => True) ⟨[⟨1, 5, 0⟩], 1⟩ :=
    Relation.ReflTransGen.single (SchedStep.unblock 1 5 ⟨[], 0⟩ trivial)
  exact ((ready_queue_sorted_and_head_chosen h).2 ⟨0, 0, 0⟩ ⟨1, 5, 0⟩ [] rfl).1

/-- C4 counterexample: during startup the idle thread IS an element of the
ready queue.  `thread_start` (thread.c lines 121-131) calls
`thread_create("idle", PRI_MIN, ...)` while the ready list is empty and the
main thread (PRI_DEFAULT) is running; `thread_unblock` inside `thread_create`
inserts the new idle TCB (tid 2 here) into the ready list, from which it is
scheduled once (see the comment above `idle`, thread.c lines 371-378). -/
theorem idle_thread_enqueued_at_startup :
    (⟨2, PRI_MIN, 0⟩ : ThreadRec) ∈
      (thread_create true ⟨1, PRI_DEFAULT, 0⟩ 2 PRI_MIN ⟨[], 0⟩).state.queue := by
  decide

/-- C4 (amended): after startup — once every ready-list insertion concerns a
non-idle thread, which the code guarantees (`thread_yield` skips
`idle_thread`, and the idle thread blocks itself and is never passed to
`thread_unblock` again) — the idle thread is never an element of the ready
queue, and whenever the ready queue is empty, `next_thread_to_run` (hence
`schedule()`) selects the idle thread. -/
theorem idle_thread_outside_ready_after_startup {idleTid : Nat} {s : SchedState}
    (h : SchedReachable (fun t => t ≠ idleTid) s) :
    (∀ t ∈ s.queue, t.tid ≠ idleTid) ∧
    (∀ idle : ThreadRec, s.queue = [] → (next_thread_to_run idle s.queue).1 = idle) := by
  refine ⟨schedReachable_allowed h, ?_⟩
  intro idle hq
  rw [hq]
  rfl

/-- Witness for the amended C4: thread 1 unblocked into the post-startup
system is not the idle thread (tid 9), and from the empty initial queue the
scheduling decision returns the idle thread. -/
theorem idle_thread_outside_ready_witness :
    ((⟨1, 5, 0⟩ : ThreadRec).tid ≠ 9) ∧
    (next_thread_to_run ⟨9, 0, 0⟩ ([] : List ThreadRec)).1 = ⟨9, 0, 0⟩ := by
  have h1 : SchedReachable (fun t => t ≠ 9) ⟨[⟨1, 5, 0⟩], 1⟩ :=
    Relation.ReflTransGen.single (SchedStep.unblock 1 5 ⟨[], 0⟩ (by decide))
  have h0 : SchedReachable (fun t => t ≠ 9) ⟨[], 0⟩ := Relation.ReflTransGen.refl
  exact ⟨(idle_thread_outside_ready_after_startup h1).1 ⟨1, 5, 0⟩ (by simp),
         (idle_thread_outside_ready_after_startup h0).2 ⟨9, 0, 0⟩ rfl⟩

/-- C5 counterexample: `thread_create` DOES itself yield the CPU.  With the
caller at priority 5 creating a thread of priority 10, the call to
`test_max_priority()` at thread.c line 201 — inside `thread_create` — finds
the new thread at the head of the ready list and invokes `thread_yield()`
before `thread_create` returns, so the caller relinquishes the CPU inside
the call. -/
theorem thread_create_yields_inside :
    (thread_create true ⟨1, 5, 0⟩ 2 10 ⟨[], 0⟩).yielded = true := by
  decide

/-- C5 (amended): `thread_create` itself performs the priority check: after
unblocking the new thread it calls `test_max_priority()`, and whenever the
new thread's priority exceeds the caller's the caller yields the CPU inside
`thread_create`; the check is not left to the caller. -/
theorem thread_create_performs_priority_yield {cur : ThreadRec} {newTid : Nat}
    {newPrio : Int} {st : SchedState} (h : cur.priority < newPrio) :
    (thread_create true cur newTid newPrio st).yielded = true := by
  show test_max_priority cur.priority
      (insertOrdered compare_elem ⟨newTid, newPrio, st.clock⟩ st.queue) = true
  obtain ⟨hd, rest, heq, hge⟩ :=
    insertOrdered_head_ge ⟨newTid, newPrio, st.clock⟩ st.queue
  rw [heq]
  show decide (cur.priority < hd.priority) = true
  exact decide_eq_true (lt_of_lt_of_le h hge)

/-- Witness for the amended C5: caller priority 7, new thread priority 20,
one other thread (priority 1) already queued. -/
theorem thread_create_priority_yield_witness :
    (thread_create true ⟨3, 7, 0⟩ 4 20 ⟨[⟨5, 1, 0⟩], 1⟩).yielded = true :=
  thread_create_performs_priority_yield (by decide)

/-- C6: re-acquiring a lock already held by the caller is a fatal assertion
(`ASSERT(!lock_held_by_current_thread(lock))`, synch.c line 196): the kernel
halts with a diagnostic, the call does not return normally (no `.ok` result)
and in particular never enqueues the caller as a waiter. -/
theorem lock_reacquire_is_fatal_assertion {cur : ThreadRec} {lk : Lock}
    (h : lk.holder = some cur.tid) :
    lock_acquire false cur lk = .error .assertAlreadyHeld := by
  simp [lock_acquire, lock_held_by_current_thread, h]

/-- Witness for C6: thread 1 already holds the lock and calls `lock_acquire`
on it again. -/
theorem lock_reacquire_is_fatal_witness :
    lock_acquire false ⟨1, 10, 0⟩
      { holder := some 1, semaphore := { value := 0, waiters := [] } } =
      .error .assertAlreadyHeld :=
  lock_reacquire_is_fatal_assertion rfl

/-- C7: on a semaphore with positive value and no waiters, `sema_down`
returns immediately after decrementing, and the directly following `sema_up`
(no intervening waiter) restores the semaphore to its original value — in
fact to its exact original state. -/
theorem sema_down_up_restores_value (cur : ThreadRec) (s : Semaphore)
    (hv : 0 < s.value) (hw : s.waiters = []) :
    sema_down cur s = .completed { s with value := s.value - 1 } ∧
    (sema_up { s with value := s.value - 1 }).1 = s := by
  obtain ⟨v, w⟩ := s
  subst hw
  cases v with
  | zero => exact absurd hv (lt_irrefl 0)
  | succ n => exact ⟨rfl, rfl⟩

/-- Witness for C7 at value 2: down leaves 1, up restores 2. -/
theorem sema_down_up_restores_value_witness :
    sema_down ⟨1, 10, 0⟩ ⟨2, []⟩ = .completed ⟨1, []⟩ ∧
    (sema_up ⟨1, []⟩).1 = ⟨2, []⟩ :=
  sema_down_up_restores_value ⟨1, 10, 0⟩ ⟨2, []⟩ (by decide) rfl

/-- C8: when TCB/stack page allocation fails (`palloc_get_page` returns
NULL, thread.c lines 182-184), `thread_create` returns TID_ERROR at once:
the kernel does not halt, no thread is initialized, nothing is inserted into
any queue, and no yield happens — the scheduler state is returned
unchanged. -/
theorem thread_create_alloc_failure_returns_tid_error (cur : ThreadRec)
    (newTid : Nat) (newPrio : Int) (st : SchedState) :
    thread_create false cur newTid newPrio st =
      { tid := TID_ERROR, state := st, yielded := false } := rfl

/-- C9: for a vector with no registered handler, `intr_handler` (interrupt.c
lines 340-352) is silently ignored exactly on the two spurious vectors 0x27
and 0x2f, and on every other vector dumps the frame and PANICs. -/
theorem unregistered_vector_fatal_except_spurious (registered : Nat → Bool)
    (vec : Nat) (h : registered vec = false) :
    (intr_handler_dispatch registered vec = .ignoredSpurious ↔
      (vec = 0x27 ∨ vec = 0x2f)) ∧
    (intr_handler_dispatch registered vec = .panicDump ↔
      ¬(vec = 0x27 ∨ vec = 0x2f)) := by
  by_cases hv : vec = 0x27 ∨ vec = 0x2f <;>
    simp [intr_handler_dispatch, h, hv]

/-- Witness for C9 with no handler registered anywhere: vector 0x27 is
silently ignored, vector 0x30 halts with a frame dump. -/
theorem unregistered_vector_fatal_witness :
    intr_handler_dispatch (fun _ => false) 0x27 = .ignoredSpurious ∧
    intr_handler_dispatch (fun _ => false) 0x30 = .panicDump :=
  ⟨(unregistered_vector_fatal_except_spurious (fun _ => false) 0x27 rfl).1.mpr
      (Or.inl rfl),
   (unregistered_vector_fatal_except_spurious (fun _ => false) 0x30 rfl).2.mpr
      (by decide)⟩

/-- C10: `init_thread` (thread.c lines 416-432) asserts
`PRI_MIN <= priority && priority <= PRI_MAX`, halting the kernel for any
priority outside [0, 63]; under the precondition 0 ≤ priority ≤ 63 the
assertion branch is unreachable and the new TCB has effective priority equal
to its base priority (both equal to the argument), no `wait_on_lock`, and an
empty donor list. -/
theorem init_thread_priority_range_assert (p : Int) :
    (¬(PRI_MIN ≤ p ∧ p ≤ PRI_MAX) → init_thread p = .error .assertPriorityRange) ∧
    (PRI_MIN ≤ p ∧ p ≤ PRI_MAX →
      init_thread p = .ok { priority := p, init_prio_base := p,
                            wait_on_lock := none, donor := [] }) := by
  constructor
  · intro h
    simp [init_thread, h]
  · intro h
    simp [init_thread, h]

/-- Witness for C10 at priority 70 (out of range, fatal) and priority 31
(in range, fully initialized). -/
theorem init_thread_priority_range_witness :
    init_thread 70 = .error .assertPriorityRange ∧
    init_thread 31 = .ok { priority := 31, init_prio_base := 31,
                           wait_on_lock := none, donor := [] } :=
  ⟨(init_thread_priority_range_assert 70).1 (by decide),
   (init_thread_priority_range_assert 31).2 (by decide)⟩

end PintosModel
